import Mathlib

set_option maxRecDepth 40000

attribute [local semireducible] Rat.add Rat.mul Rat.sub Rat.inv Rat.ofScientific

/-!
Verification of the calculator engine of this repository
(src/Quiz04/calculator.py, class Calculator; src/Quiz06/engineering_calculator.py,
classes Calculator and EngineeringCalculator).

Modelling decisions, stated once here:

* Python floats are idealised as exact rationals (`ℚ`) inside the basic engine;
  all claims settled on this model concern control flow, string handling and the
  exact arithmetic of small decimal inputs, where double rounding plays no role.
  The non-finite float cases (inf, -inf, nan) relevant to the value-formatting
  rule are modelled separately by the `PyFloat` type below.
* `float(self.current)` (with the `except ValueError: return 0.0` fallback of
  `_current_value`) is modelled by `parseFloat`, an exact decimal parser for the
  grammar sign? (digits [. digits] | . digits) [(e|E) sign? digits].  Python's
  additional acceptance of surrounding whitespace, digit underscores and the
  literals inf/infinity/nan is not modelled: no text reachable through the
  engine's actions has those shapes.
* `f"{val:.12g}"` is modelled by `fmt`: round to 12 significant decimal digits
  (ties to even), strip trailing zeros, fixed notation when the decimal exponent
  lies in [-4, 12), scientific notation `d.dddde±XX` otherwise, `0.0 ↦ "0"`.
* The Quiz06 `Calculator` class is textually identical to the Quiz04 one except
  for its `_set_current_from_value`, which guards with `math.isfinite`; the
  shared behaviour is embedded once, in namespace `Quiz04`, and the differing
  write-back helpers are embedded per file.
-/

namespace Quiz04

/-- The four operator symbols '+', '−', '×', '÷' that `pending_op` can hold
(calculator.py: set only by `add`/`subtract`/`multiply`/`divide` via
`_press_operator`). -/
inductive Op where
  | add
  | sub
  | mul
  | div
deriving DecidableEq

/-- The engine state of class `Calculator`: fields `acc`, `current`,
`pending_op`, `just_evaluated` (calculator.py, `reset`, lines 23-28).  The
display callback only mirrors `current` and is not part of the state. -/
structure CalcState where
  acc : ℚ
  current : String
  pending_op : Option Op
  just_evaluated : Bool
deriving DecidableEq

/-- The cleared configuration established by `__init__`/`reset`:
`acc = 0.0`, `current = "0"`, `pending_op = None`, `just_evaluated = False`. -/
def clearedState : CalcState :=
  { acc := 0, current := "0", pending_op := none, just_evaluated := false }

/-- `Calculator.reset` (lines 23-28): unconditionally re-establishes the
cleared configuration. -/
def reset (_s : CalcState) : CalcState := clearedState

/-- Exact power of ten in `ℚ` (natural exponent), via the accelerated `ℕ`
power. -/
def qpow10 (n : ℕ) : ℚ := ((10 ^ n : ℕ) : ℚ)

/-- Exact power of ten in `ℚ` (integer exponent). -/
def qpow10z : ℤ → ℚ
  | Int.ofNat n => qpow10 n
  | Int.negSucc n => 1 / qpow10 (n + 1)

/-- Numeric value of a list of decimal digit characters (the integer a run of
digits denotes inside `float(...)` parsing). -/
def digitsVal (ds : List Char) : ℕ :=
  ds.foldl (fun a c => 10 * a + (c.toNat - 48)) 0

/-- A run of decimal digits, required non-empty (exponent part of the float
grammar). -/
def parseDigitsNat (cs : List Char) : Option ℕ :=
  if cs.isEmpty then none
  else if cs.all Char.isDigit then some (digitsVal cs) else none

/-- The exponent suffix after an `e`/`E`: optional sign, then digits. -/
def parseExpPart (cs : List Char) : Option ℤ :=
  match cs with
  | '-' :: rest => (parseDigitsNat rest).map (fun n => -(n : ℤ))
  | '+' :: rest => (parseDigitsNat rest).map (fun n => (n : ℤ))
  | _ => (parseDigitsNat cs).map (fun n => (n : ℤ))

/-- Mantissa of the float grammar: `digits [. digits] | . digits`, valued
exactly in `ℚ`. -/
def parseMant (cs : List Char) : Option ℚ :=
  let ds := cs.takeWhile Char.isDigit
  let rest := cs.dropWhile Char.isDigit
  if rest.isEmpty then
    if ds.isEmpty then none else some (digitsVal ds : ℚ)
  else if rest.head? = some '.' then
    let fs := rest.drop 1
    if fs.all Char.isDigit then
      if ds.isEmpty && fs.isEmpty then none
      else some ((digitsVal ds : ℚ) + (digitsVal fs : ℚ) / qpow10 fs.length)
    else none
  else none

/-- Is this character an exponent marker of the float grammar? -/
def isExpChar (c : Char) : Bool := c == 'e' || c == 'E'

/-- Unsigned float text: mantissa with optional exponent suffix. -/
def parseUF (cs : List Char) : Option ℚ :=
  if cs.any isExpChar then
    let mant := cs.takeWhile (fun c => !isExpChar c)
    let erest := (cs.dropWhile (fun c => !isExpChar c)).drop 1
    (parseMant mant).bind fun m =>
      (parseExpPart erest).map fun e => m * qpow10z e
  else parseMant cs

/-- Exact value of a Python `float(text)` call on the texts reachable in the
engine; `none` models the `ValueError` branch. -/
def parseFloat (t : String) : Option ℚ :=
  match t.data with
  | '-' :: rest => (parseUF rest).map (fun v => -v)
  | '+' :: rest => parseUF rest
  | _ => parseUF t.data

/-- `Calculator._current_value` (lines 31-35): `float(self.current)`, and `0.0`
on `ValueError` (e.g. when `current` holds `"Error"`). -/
def current_value (s : CalcState) : ℚ :=
  (parseFloat s.current).getD 0

/-- Fuel-driven base-10 logarithm on `ℕ` (`log10fuel n n` is exact for
`n ≥ 1`). -/
def log10fuel : ℕ → ℕ → ℕ
  | 0, _ => 0
  | fuel + 1, n => if n < 10 then 0 else log10fuel fuel (n / 10) + 1

/-- Number of decimal digits of `n` minus one, for `n ≥ 1`. -/
def natLog10 (n : ℕ) : ℕ := log10fuel n n

/-- Decimal exponent of a positive rational: the `e` with `10^e ≤ a < 10^(e+1)`. -/
def qLog10 (a : ℚ) : ℤ :=
  let k : ℤ := (natLog10 a.num.natAbs : ℤ) - (natLog10 a.den : ℤ)
  if a < qpow10z k then k - 1 else k

/-- Round a non-negative rational to the nearest integer, ties to even (the
rounding used when printf narrows a value to 12 significant digits). -/
def roundHalfEven (q : ℚ) : ℤ :=
  let n : ℤ := q.num.fdiv (q.den : ℤ)
  let f : ℚ := q - (n : ℚ)
  if f < 1 / 2 then n
  else if 1 / 2 < f then n + 1
  else if n % 2 = 0 then n else n + 1

/-- Decimal digit characters of `n`, most significant first (fuel-driven). -/
def natDigitsAux : ℕ → ℕ → List Char → List Char
  | 0, _, acc => acc
  | fuel + 1, n, acc =>
    if n = 0 then acc
    else natDigitsAux fuel (n / 10) (Char.ofNat (48 + n % 10) :: acc)

/-- Decimal digit characters of `n`, most significant first. -/
def natDigits (n : ℕ) : List Char :=
  if n = 0 then ['0'] else natDigitsAux (n + 1) n []

/-- Drop trailing `'0'` characters (the `%g` removal of trailing zeros). -/
def stripZeros (ds : List Char) : List Char :=
  (ds.reverse.dropWhile (fun c => c == '0')).reverse

/-- Fixed-point rendering of significant digits `sig` with decimal exponent
`e` (the `%g` fixed branch, taken when `-4 ≤ e < 12`). -/
def fixedRender (sig : List Char) (e : ℤ) : List Char :=
  if 0 ≤ e then
    let k := e.toNat + 1
    if sig.length ≤ k then sig ++ List.replicate (k - sig.length) '0'
    else (sig.take k) ++ ('.' :: sig.drop k)
  else
    '0' :: '.' :: (List.replicate (-(e + 1)).toNat '0' ++ sig)

/-- Exponent suffix characters of the `%g` scientific branch: sign then at
least two digits. -/
def expDigits (e : ℤ) : List Char :=
  let ds := natDigits e.natAbs
  let ds := if ds.length < 2 then '0' :: ds else ds
  (if 0 ≤ e then '+' else '-') :: ds

/-- Scientific rendering `d[.ddd]e±XX` of significant digits `sig` with
decimal exponent `e`. -/
def sciRender (sig : List Char) (e : ℤ) : List Char :=
  match sig with
  | [] => ['0']
  | c :: rest =>
    c :: ((if rest.isEmpty then [] else '.' :: rest) ++ ('e' :: expDigits e))

/-- `%.12g` rendering of a positive rational: round to 12 significant digits
(ties to even), strip trailing zeros, then fixed or scientific notation by the
exponent range rule. -/
def fmtPos (a : ℚ) : String :=
  let e0 := qLog10 a
  let m0 := (roundHalfEven (a * qpow10z (11 - e0))).toNat
  let m := if m0 = 10 ^ 12 then 10 ^ 11 else m0
  let e := if m0 = 10 ^ 12 then e0 + 1 else e0
  let sig := stripZeros (natDigitsAux 20 m [])
  if -4 ≤ e ∧ e < 12 then String.mk (fixedRender sig e)
  else String.mk (sciRender sig e)

/-- The value-formatting rule `f"{val:.12g}"` of the engine, on finite values. -/
def fmt (val : ℚ) : String :=
  if val = 0 then "0"
  else if val < 0 then "-" ++ fmtPos (-val) else fmtPos val

/-- `Calculator._set_current_from_value` (calculator.py, lines 37-41): write
`f"{val:.12g}"` into `current` (no finiteness guard in this file). -/
def set_current_from_value (s : CalcState) (val : ℚ) : CalcState :=
  { s with current := fmt val }

/-- `Calculator.input_digit` (lines 44-54). -/
def input_digit (s : CalcState) (d : String) : CalcState :=
  let s :=
    if s.just_evaluated = true ∧ s.pending_op = none then
      { s with current := "0", just_evaluated := false }
    else s
  if s.current = "0" then { s with current := d }
  else { s with current := s.current ++ d }

/-- `Calculator.input_dot` (lines 56-63). -/
def input_dot (s : CalcState) : CalcState :=
  let s :=
    if s.just_evaluated = true ∧ s.pending_op = none then
      { s with current := "0", just_evaluated := false }
    else s
  if '.' ∈ s.current.data then s
  else { s with current := s.current ++ (if s.current = "" then "0." else ".") }

/-- `Calculator.negative_positive` (lines 66-72): strip a leading `-` (falling
back to `"0"` when nothing remains), otherwise prepend `-` unless the text is
exactly `"0"`. -/
def negative_positive (s : CalcState) : CalcState :=
  if s.current.data.head? = some '-' then
    let stripped := String.mk (s.current.data.drop 1)
    { s with current := if stripped = "" then "0" else stripped }
  else if s.current = "0" then s
  else { s with current := "-" ++ s.current }

/-- `Calculator.percent` (lines 77-84). -/
def percent (s : CalcState) : CalcState :=
  let cur := current_value s
  let cur :=
    match s.pending_op with
    | some _ => s.acc * (cur / 100)
    | none => cur / 100
  set_current_from_value s cur

/-- The state installed by the `ZeroDivisionError` branch of `_apply_pending`
(lines 105-111): `current = "Error"`, `acc = 0.0`, `pending_op = None`,
`just_evaluated = True`. -/
def divErrorState : CalcState :=
  { acc := 0, current := "Error", pending_op := none, just_evaluated := true }

/-- `Calculator._apply_pending` (lines 87-114).  The `Bool` component models
the `return "error"` status consumed by `_press_operator` and `equal`. -/
def apply_pending (s : CalcState) : CalcState × Bool :=
  match s.pending_op with
  | none => (s, false)
  | some op =>
    let a := s.acc
    let b := current_value s
    let res? : Option ℚ :=
      match op with
      | Op.add => some (a + b)
      | Op.sub => some (a - b)
      | Op.mul => some (a * b)
      | Op.div => if b = 0 then none else some (a / b)
    match res? with
    | none => (divErrorState, true)
    | some res => (set_current_from_value { s with acc := res } res, false)

/-- `Calculator._press_operator` (lines 116-134). -/
def press_operator (s : CalcState) (op : Op) : CalcState :=
  if s.current = "Error" then reset s
  else
    match s.pending_op with
    | none =>
      { s with
        acc := current_value s
        pending_op := some op
        just_evaluated := false
        current := "0" }
    | some _ =>
      let r := apply_pending s
      if r.2 then r.1
      else { r.1 with pending_op := some op, current := "0", just_evaluated := false }

/-- `Calculator.add`. -/
def add (s : CalcState) : CalcState := press_operator s Op.add

/-- `Calculator.subtract`. -/
def subtract (s : CalcState) : CalcState := press_operator s Op.sub

/-- `Calculator.multiply`. -/
def multiply (s : CalcState) : CalcState := press_operator s Op.mul

/-- `Calculator.divide`. -/
def divide (s : CalcState) : CalcState := press_operator s Op.div

/-- `Calculator.equal` (lines 142-156). -/
def equal (s : CalcState) : CalcState :=
  if s.current = "Error" then reset s
  else
    match s.pending_op with
    | none =>
      { set_current_from_value s (current_value s) with just_evaluated := true }
    | some _ =>
      let r := apply_pending s
      if r.2 then r.1
      else { r.1 with pending_op := none, just_evaluated := true }

/-- The binary operation denoted by an operator symbol (the success cases of
`_apply_pending`). -/
def applyOp : Op → ℚ → ℚ → ℚ
  | Op.add, a, b => a + b
  | Op.sub, a, b => a - b
  | Op.mul, a, b => a * b
  | Op.div, a, b => a / b

end Quiz04

/-- A Python float as seen by `math.isfinite` and by `f"{val:.12g}"`: either a
finite value (idealised as an exact rational) or one of the three non-finite
values `inf`, `-inf`, `nan`. -/
inductive PyFloat where
  | finite (val : ℚ)
  | posInf
  | negInf
  | nan
deriving DecidableEq

/-- `math.isfinite`. -/
def PyFloat.isfinite : PyFloat → Bool
  | PyFloat.finite _ => true
  | _ => false

/-- `f"{val:.12g}"` over the full float domain: finite values render through
the 12-significant-digit rule, non-finite values render as the texts `"inf"`,
`"-inf"`, `"nan"` (CPython `%g` behaviour on non-finite doubles). -/
def PyFloat.fmtText : PyFloat → String
  | PyFloat.finite v => Quiz04.fmt v
  | PyFloat.posInf => "inf"
  | PyFloat.negInf => "-inf"
  | PyFloat.nan => "nan"

namespace Quiz04

/-- `Calculator._set_current_from_value` of src/Quiz04/calculator.py (lines
37-41), over the full float domain: `self.current = f"{val:.12g}"` with no
finiteness guard, so a non-finite value is written as `"inf"`/`"-inf"`/`"nan"`
text. -/
def set_current_from_value_py (s : CalcState) (val : PyFloat) : CalcState :=
  { s with current := val.fmtText }

end Quiz04

namespace Quiz06

/-- `Calculator._set_current_from_value` of
src/Quiz06/engineering_calculator.py (lines 33-39): `text = f"{val:.12g}"` when
`math.isfinite(val)`, and `text = "Error"` otherwise.  The rest of the Quiz06
`Calculator` class is textually identical to the Quiz04 one modelled above. -/
def set_current_from_value (s : Quiz04.CalcState) (val : PyFloat) : Quiz04.CalcState :=
  { s with current := if val.isfinite then val.fmtText else "Error" }

/-- State of class `EngineeringCalculator`: the inherited `Calculator` state
plus the `is_degree_mode` flag. -/
structure EngCalcState extends Quiz04.CalcState where
  is_degree_mode : Bool
deriving DecidableEq

/-- `EngineeringCalculator.__init__`: the inherited cleared configuration with
`is_degree_mode = True` (Deg is the default). -/
def engInit : EngCalcState :=
  { toCalcState := Quiz04.clearedState, is_degree_mode := true }

/-- `EngineeringCalculator.set_deg`. -/
def set_deg (s : EngCalcState) : EngCalcState := { s with is_degree_mode := true }

/-- `EngineeringCalculator.set_rad`. -/
def set_rad (s : EngCalcState) : EngCalcState := { s with is_degree_mode := false }

/-- `math.radians`: degrees-to-radians conversion `x * (π / 180)`. -/
noncomputable def radians (x : ℝ) : ℝ := x * (Real.pi / 180)

/-- `EngineeringCalculator._angle` (lines 169-171): `math.radians(x)` in Deg
mode, the raw `x` in Rad mode. -/
noncomputable def angle (s : EngCalcState) (x : ℝ) : ℝ :=
  if s.is_degree_mode then radians x else x

/-- `self._current_value()` of the engineering calculator, as a real number
(the idealised-rational parse of `current`, viewed in `ℝ` where the
transcendental functions live). -/
noncomputable def currentValueR (s : EngCalcState) : ℝ :=
  ((Quiz04.current_value s.toCalcState : ℚ) : ℝ)

/-- The value computed by `EngineeringCalculator.sin` (lines 189-191) and
passed to `_set_current_from_value`: `math.sin(self._angle(self._current_value()))`. -/
noncomputable def sinVal (s : EngCalcState) : ℝ := Real.sin (angle s (currentValueR s))

/-- The value computed by `EngineeringCalculator.cos` (lines 193-195). -/
noncomputable def cosVal (s : EngCalcState) : ℝ := Real.cos (angle s (currentValueR s))

/-- The value computed by `EngineeringCalculator.tan` (lines 197-202). -/
noncomputable def tanVal (s : EngCalcState) : ℝ := Real.tan (angle s (currentValueR s))

/-- The value computed by `EngineeringCalculator.sinh` (lines 204-206):
`math.sinh(self._current_value())` — no `_angle` conversion. -/
noncomputable def sinhVal (s : EngCalcState) : ℝ := Real.sinh (currentValueR s)

/-- The value computed by `EngineeringCalculator.cosh` (lines 208-210). -/
noncomputable def coshVal (s : EngCalcState) : ℝ := Real.cosh (currentValueR s)

/-- The value computed by `EngineeringCalculator.tanh` (lines 212-214). -/
noncomputable def tanhVal (s : EngCalcState) : ℝ := Real.tanh (currentValueR s)

end Quiz06


namespace Quiz04

/-- Number of `'.'` characters in a text (the quantity bounded by the
decimal-point invariant). -/
def dotCount (t : String) : ℕ := t.data.count '.'

end Quiz04

/-- Claim C1: in a state with a pending Divide operator whose current text is
not the error marker and parses to 0, Evaluate installs the division-by-zero
error state: error marker as `current`, accumulator `0`, no pending operator,
`just_evaluated = true` (and, being a total function, raises nothing); the
internal fold of a chained PressOperator lands in the same state without
recording the new operator; and a subsequent Clear returns to the cleared
configuration with `current = "0"` and no pending operator. -/
theorem c1_div_by_zero_containment (s : Quiz04.CalcState)
    (hp : s.pending_op = some Quiz04.Op.div)
    (he : s.current ≠ "Error")
    (hz : Quiz04.current_value s = 0) :
    Quiz04.equal s = Quiz04.divErrorState ∧
    (∀ op : Quiz04.Op, Quiz04.press_operator s op = Quiz04.divErrorState) ∧
    Quiz04.reset (Quiz04.equal s) = Quiz04.clearedState := by
  refine ⟨?_, fun op => ?_, rfl⟩ <;>
    simp [Quiz04.equal, Quiz04.press_operator, Quiz04.apply_pending, hp, he, hz]

/-- Witness for C1 at the state reached by entering `5`, `÷`, `0`. -/
theorem c1_witness :
    Quiz04.equal
        { acc := 5, current := "0", pending_op := some Quiz04.Op.div,
          just_evaluated := false }
      = Quiz04.divErrorState ∧
    (∀ op : Quiz04.Op,
      Quiz04.press_operator
          { acc := 5, current := "0", pending_op := some Quiz04.Op.div,
            just_evaluated := false } op
        = Quiz04.divErrorState) ∧
    Quiz04.reset (Quiz04.equal
        { acc := 5, current := "0", pending_op := some Quiz04.Op.div,
          just_evaluated := false })
      = Quiz04.clearedState :=
  c1_div_by_zero_containment _ rfl (by decide) (by decide)

/-- Claim C5: when the current text holds the error marker, PressOperator and
Evaluate each perform Clear() and return: both yield exactly the cleared
configuration, recording no operator and evaluating nothing. -/
theorem c5_error_marker_clears (s : Quiz04.CalcState) (op : Quiz04.Op)
    (he : s.current = "Error") :
    Quiz04.press_operator s op = Quiz04.clearedState ∧
    Quiz04.equal s = Quiz04.clearedState := by
  constructor <;> simp [Quiz04.press_operator, Quiz04.equal, Quiz04.reset, he]

/-- Witness for C5 at the division-by-zero error state. -/
theorem c5_witness :
    Quiz04.press_operator Quiz04.divErrorState Quiz04.Op.add = Quiz04.clearedState ∧
    Quiz04.equal Quiz04.divErrorState = Quiz04.clearedState :=
  c5_error_marker_clears Quiz04.divErrorState Quiz04.Op.add rfl

/-- Claim C10: from the division-by-zero error state, entering a digit yields
exactly the state that Clear() followed by the same digit would yield:
`current` equal to the digit, accumulator `0`, no pending operator,
`just_evaluated = false`. -/
theorem c10_digit_after_error (d : String)
    (_hd : d ∈ (["0", "1", "2", "3", "4", "5", "6", "7", "8", "9"] : List String)) :
    Quiz04.input_digit Quiz04.divErrorState d
      = Quiz04.input_digit (Quiz04.reset Quiz04.divErrorState) d ∧
    Quiz04.input_digit Quiz04.divErrorState d
      = { acc := 0, current := d, pending_op := none, just_evaluated := false } := by
  constructor <;>
    simp [Quiz04.input_digit, Quiz04.divErrorState, Quiz04.reset, Quiz04.clearedState]

/-- Witness for C10 at digit `7`. -/
theorem c10_witness :
    Quiz04.input_digit Quiz04.divErrorState "7"
      = Quiz04.input_digit (Quiz04.reset Quiz04.divErrorState) "7" ∧
    Quiz04.input_digit Quiz04.divErrorState "7"
      = { acc := 0, current := "7", pending_op := none, just_evaluated := false } :=
  c10_digit_after_error "7" (by decide)

/-- Claim C3 (amended part): in the Quiz06 engine, whose
`_set_current_from_value` guards with `math.isfinite`, writing back any
non-finite value renders the error marker as the current text. -/
theorem c3_nonfinite_error (s : Quiz04.CalcState) (v : PyFloat)
    (h : v.isfinite = false) :
    (Quiz06.set_current_from_value s v).current = "Error" := by
  simp [Quiz06.set_current_from_value, h]

/-- Witness for C3 at `nan`. -/
theorem c3_witness :
    (Quiz06.set_current_from_value Quiz04.clearedState PyFloat.nan).current = "Error" :=
  c3_nonfinite_error Quiz04.clearedState PyFloat.nan (by decide)

/-- Counterexample for C3 as stated: the Quiz04 engine's
`_set_current_from_value` has no finiteness guard, so an infinite result is
written back as the text `"inf"`, not as the error marker. -/
theorem c3_counterexample :
    (Quiz04.set_current_from_value_py Quiz04.clearedState PyFloat.posInf).current = "inf" ∧
    (Quiz04.set_current_from_value_py Quiz04.clearedState PyFloat.posInf).current ≠ "Error" := by
  decide

/-- Claim C4: Percent writes back `acc * (v / 100)` when an operator is
pending and `v / 100` otherwise (through the value-formatting rule, touching
no other field), and consequently the sequence `200`, `+`, `10`, `%` displays
`20`. -/
theorem c4_percent_semantics :
    (∀ s : Quiz04.CalcState,
      Quiz04.percent s =
        { s with
          current := Quiz04.fmt
            (match s.pending_op with
             | some _ => s.acc * (Quiz04.current_value s / 100)
             | none => Quiz04.current_value s / 100) }) ∧
    (Quiz04.percent (Quiz04.input_digit (Quiz04.input_digit
        (Quiz04.press_operator (Quiz04.input_digit (Quiz04.input_digit
          (Quiz04.input_digit Quiz04.clearedState "2") "0") "0")
          Quiz04.Op.add) "1") "0")).current = "20" := by
  exact ⟨fun s => rfl, by decide⟩

/-- Claim C2: with an operator already pending (and no division-by-zero in the
fold), PressOperator first evaluates the pending operation with the
accumulator as left operand and the parsed current text as right operand,
stores the result in the accumulator, records the new operator as pending and
resets the current text to `"0"`; consequently `2`, `+`, `3`, `×`, `4`, `=`
displays `20` (left-to-right folding, no precedence). -/
theorem c2_chained_left_fold :
    (∀ (s : Quiz04.CalcState) (op0 op : Quiz04.Op),
      s.pending_op = some op0 → s.current ≠ "Error" →
      ¬(op0 = Quiz04.Op.div ∧ Quiz04.current_value s = 0) →
      Quiz04.press_operator s op =
        { acc := Quiz04.applyOp op0 s.acc (Quiz04.current_value s),
          current := "0", pending_op := some op, just_evaluated := false }) ∧
    (Quiz04.equal (Quiz04.input_digit (Quiz04.press_operator
      (Quiz04.input_digit (Quiz04.press_operator
        (Quiz04.input_digit Quiz04.clearedState "2") Quiz04.Op.add) "3")
        Quiz04.Op.mul) "4")).current = "20" := by
  refine ⟨fun s op0 op hp he hnz => ?_, by decide⟩
  have hb : op0 = Quiz04.Op.div → ¬(Quiz04.current_value s = 0) :=
    fun h0 hv => hnz ⟨h0, hv⟩
  cases op0 with
  | add =>
    simp [Quiz04.press_operator, Quiz04.apply_pending, hp, he,
      Quiz04.set_current_from_value, Quiz04.applyOp]
  | sub =>
    simp [Quiz04.press_operator, Quiz04.apply_pending, hp, he,
      Quiz04.set_current_from_value, Quiz04.applyOp]
  | mul =>
    simp [Quiz04.press_operator, Quiz04.apply_pending, hp, he,
      Quiz04.set_current_from_value, Quiz04.applyOp]
  | div =>
    simp [Quiz04.press_operator, Quiz04.apply_pending, hp, he,
      Quiz04.set_current_from_value, Quiz04.applyOp, hb rfl]

/-- Witness for C2: a pending `+` over accumulator `5` and entered `3`,
folded by pressing `×`. -/
theorem c2_witness :
    Quiz04.press_operator
        { acc := 5, current := "3", pending_op := some Quiz04.Op.add,
          just_evaluated := false } Quiz04.Op.mul
      = { acc := Quiz04.applyOp Quiz04.Op.add 5
            (Quiz04.current_value
              { acc := 5, current := "3", pending_op := some Quiz04.Op.add,
                just_evaluated := false }),
          current := "0", pending_op := some Quiz04.Op.mul,
          just_evaluated := false } :=
  c2_chained_left_fold.1 _ Quiz04.Op.add Quiz04.Op.mul rfl (by decide) (by decide)

/-- Claim C8: the current text holds at most one `'.'` initially, the property
is preserved by every InputDecimalPoint call, and hence by any sequence of
such calls. -/
theorem c8_single_dot_invariant :
    Quiz04.dotCount Quiz04.clearedState.current ≤ 1 ∧
    (∀ s : Quiz04.CalcState, Quiz04.dotCount s.current ≤ 1 →
      Quiz04.dotCount (Quiz04.input_dot s).current ≤ 1) ∧
    (∀ (n : ℕ) (s : Quiz04.CalcState), Quiz04.dotCount s.current ≤ 1 →
      Quiz04.dotCount (Quiz04.input_dot^[n] s).current ≤ 1) := by
  have append1 : ∀ (t u : String), Quiz04.dotCount (t ++ u)
      = Quiz04.dotCount t + Quiz04.dotCount u := by
    intro t u
    simp [Quiz04.dotCount, String.data_append, List.count_append]
  have afterFresh : ∀ s : Quiz04.CalcState, Quiz04.dotCount s.current ≤ 1 →
      Quiz04.dotCount
        (if '.' ∈ s.current.data then s
         else { s with
           current := s.current ++ (if s.current = "" then "0." else ".") }).current
        ≤ 1 := by
    intro s h
    by_cases hdot : '.' ∈ s.current.data
    · simpa [hdot] using h
    · have hz : List.count '.' s.current.data = 0 :=
        List.count_eq_zero.mpr hdot
      by_cases hemp : s.current = ""
      · simp [hdot, hemp, append1, hz, Quiz04.dotCount]
      · simp [hdot, hemp, append1, hz, Quiz04.dotCount]
  have step : ∀ s : Quiz04.CalcState, Quiz04.dotCount s.current ≤ 1 →
      Quiz04.dotCount (Quiz04.input_dot s).current ≤ 1 := by
    intro s h
    by_cases c1 : s.just_evaluated = true ∧ s.pending_op = none
    · simpa [Quiz04.input_dot, c1] using
        afterFresh { s with current := "0", just_evaluated := false }
          (by show Quiz04.dotCount "0" ≤ 1; decide)
    · simpa [Quiz04.input_dot, c1] using afterFresh s h
  refine ⟨by decide, step, fun n => ?_⟩
  induction n with
  | zero => intro s h; simpa using h
  | succ k ih =>
    intro s h
    rw [Function.iterate_succ_apply]
    exact ih _ (step s h)

/-- Witness for C8: one InputDecimalPoint on the text `1.5`. -/
theorem c8_witness :
    Quiz04.dotCount (Quiz04.input_dot
      { acc := 0, current := "1.5", pending_op := none,
        just_evaluated := false }).current ≤ 1 :=
  c8_single_dot_invariant.2.1 _ (by decide)

/-- Claim C6: Sin, Cos and Tan apply the trigonometric function to the operand
converted from degrees to radians (`x * (π / 180)`) in Degrees mode and to the
raw operand in Radians mode; Sinh, Cosh and Tanh apply the hyperbolic function
to the raw operand under either mode; the mode defaults to Degrees at
construction. -/
theorem c6_angle_mode_sensitivity :
    (∀ s : Quiz06.EngCalcState,
      (Quiz06.sinVal { s with is_degree_mode := true }
          = Real.sin (Quiz06.currentValueR s * (Real.pi / 180)) ∧
        Quiz06.cosVal { s with is_degree_mode := true }
          = Real.cos (Quiz06.currentValueR s * (Real.pi / 180)) ∧
        Quiz06.tanVal { s with is_degree_mode := true }
          = Real.tan (Quiz06.currentValueR s * (Real.pi / 180))) ∧
      (Quiz06.sinVal { s with is_degree_mode := false }
          = Real.sin (Quiz06.currentValueR s) ∧
        Quiz06.cosVal { s with is_degree_mode := false }
          = Real.cos (Quiz06.currentValueR s) ∧
        Quiz06.tanVal { s with is_degree_mode := false }
          = Real.tan (Quiz06.currentValueR s)) ∧
      (∀ b : Bool,
        Quiz06.sinhVal { s with is_degree_mode := b }
            = Real.sinh (Quiz06.currentValueR s) ∧
          Quiz06.coshVal { s with is_degree_mode := b }
            = Real.cosh (Quiz06.currentValueR s) ∧
          Quiz06.tanhVal { s with is_degree_mode := b }
            = Real.tanh (Quiz06.currentValueR s))) ∧
    Quiz06.engInit.is_degree_mode = true := by
  refine ⟨fun s => ⟨⟨?_, ?_, ?_⟩, ⟨?_, ?_, ?_⟩, fun b => ⟨?_, ?_, ?_⟩⟩, rfl⟩ <;>
    simp [Quiz06.sinVal, Quiz06.cosVal, Quiz06.tanVal, Quiz06.sinhVal,
      Quiz06.coshVal, Quiz06.tanhVal, Quiz06.angle, Quiz06.radians,
      Quiz06.currentValueR]

/-- Two texts with the same character data are equal. -/
theorem string_eq_of_data (a b : String) (h : a.data = b.data) : a = b := by
  cases a
  cases b
  cases h
  rfl

/-- A text with at least one character is not the empty text. -/
theorem string_mk_cons_ne_empty (c : Char) (l : List Char) :
    String.mk (c :: l) ≠ "" := by
  intro h
  have hd : c :: l = ([] : List Char) := congrArg String.data h
  cases hd

/-- The float parser rejects the empty character list. -/
theorem parseUF_nil : Quiz04.parseUF [] = none := by decide

/-- The mantissa parser rejects a list starting with `'-'`. -/
theorem parseMant_cons_dash (cs : List Char) :
    Quiz04.parseMant ('-' :: cs) = none := by
  have h1 : Char.isDigit '-' = false := by decide
  have h2 : ('-' : Char) ≠ '.' := by decide
  simp [Quiz04.parseMant, List.takeWhile_cons, List.dropWhile_cons, h1, h2]

/-- The unsigned float parser rejects a list starting with `'-'`. -/
theorem parseUF_cons_dash (cs : List Char) :
    Quiz04.parseUF ('-' :: cs) = none := by
  have h1 : Quiz04.isExpChar '-' = false := by decide
  by_cases h : ('-' :: cs).any Quiz04.isExpChar
  · simp [Quiz04.parseUF, h, List.takeWhile_cons, h1, parseMant_cons_dash]
  · simp [Quiz04.parseUF, h, parseMant_cons_dash]

/-- Claim C9 (amended part): for every state whose current text is a valid
numeric text other than exactly `"-0"`, toggling the sign twice restores the
current text; a leading `-` is stripped (yielding `"0"` if nothing remains)
and otherwise `-` is prepended unless the text is exactly `"0"`. -/
theorem c9_toggle_sign_round_trip (s : Quiz04.CalcState)
    (hv : (Quiz04.parseFloat s.current).isSome = true)
    (h0 : s.current ≠ "-0") :
    (Quiz04.negative_positive (Quiz04.negative_positive s)).current = s.current := by
  cases hl : s.current.data with
  | nil =>
    rw [Quiz04.parseFloat, hl] at hv
    rw [parseUF_nil] at hv
    simp at hv
  | cons c rs =>
    by_cases hc : c = '-'
    · subst hc
      have hpf : Quiz04.parseFloat s.current
          = (Quiz04.parseUF rs).map (fun v => -v) := by
        rw [Quiz04.parseFloat, hl]
        exact rfl
      rw [hpf] at hv
      have hrs : (Quiz04.parseUF rs).isSome = true := by
        rcases h : Quiz04.parseUF rs with _ | v
        · rw [h] at hv; simp at hv
        · rfl
      rcases rs with _ | ⟨c2, rs2⟩
      · rw [parseUF_nil] at hrs; simp at hrs
      · have hc2 : ¬(c2 = '-') := by
          intro h2
          subst h2
          rw [parseUF_cons_dash] at hrs
          simp at hrs
        have hne0 : ¬(String.mk (c2 :: rs2) = "0") := by
          intro h2
          apply h0
          apply string_eq_of_data
          have hd : c2 :: rs2 = ['0'] := congrArg String.data h2
          rw [hl, hd]
        have e1 : Quiz04.negative_positive s
            = { s with current := String.mk (c2 :: rs2) } := by
          simp [Quiz04.negative_positive, hl, string_mk_cons_ne_empty]
        rw [e1]
        have e2 : Quiz04.negative_positive { s with current := String.mk (c2 :: rs2) }
            = { s with current := "-" ++ String.mk (c2 :: rs2) } := by
          simp [Quiz04.negative_positive, hc2, hne0]
        rw [e2]
        show ("-" ++ String.mk (c2 :: rs2)) = s.current
        apply string_eq_of_data
        rw [String.data_append, hl]
        rfl
    · by_cases h00 : s.current = "0"
      · have e1 : Quiz04.negative_positive s = s := by
          simp [Quiz04.negative_positive, hl, hc, h00]
        rw [e1, e1]
      · have e1 : Quiz04.negative_positive s
            = { s with current := "-" ++ s.current } := by
          simp [Quiz04.negative_positive, hl, hc, h00]
        rw [e1]
        have e2data : ("-" ++ s.current).data = '-' :: c :: rs := by
          rw [String.data_append, hl]
          rfl
        have e2 : Quiz04.negative_positive { s with current := "-" ++ s.current }
            = { s with current := String.mk (c :: rs) } := by
          simp [Quiz04.negative_positive, e2data, string_mk_cons_ne_empty]
        rw [e2]
        show String.mk (c :: rs) = s.current
        exact string_eq_of_data _ _ hl.symm

/-- Witness for C9 at the text `-1.5`. -/
theorem c9_witness :
    (Quiz04.negative_positive (Quiz04.negative_positive
      { acc := 0, current := "-1.5", pending_op := none,
        just_evaluated := false })).current = "-1.5" :=
  c9_toggle_sign_round_trip _ (by decide) (by decide)

/-- Counterexample for C9 as stated: `"-0"` is a valid numeric text, yet
toggling the sign twice yields `"0"`, not `"-0"` — the first toggle strips the
`-` leaving exactly `"0"`, which the second toggle refuses to re-sign. -/
theorem c9_counterexample :
    (Quiz04.parseFloat "-0").isSome = true ∧
    (Quiz04.negative_positive (Quiz04.negative_positive
      { acc := 0, current := "-0", pending_op := none,
        just_evaluated := false })).current = "0" ∧
    ("0" : String) ≠ "-0" := by
  decide

/-- Claim C7 (amended part): for a state whose current text is a valid numeric
text representing `v` and with no pending operator, if the 12-significant-digit
formatter round-trips on `v` (in particular whenever the text carries at most
12 significant digits), then Evaluate leaves the displayed value numerically
equal to `v`, sets `just_evaluated`, and a second Evaluate changes nothing
further. -/
theorem c7_evaluate_idempotent (s : Quiz04.CalcState) (v : ℚ)
    (hv : Quiz04.parseFloat s.current = some v)
    (hp : s.pending_op = none)
    (hrt : Quiz04.parseFloat (Quiz04.fmt v) = some v) :
    Quiz04.current_value (Quiz04.equal s) = v ∧
    (Quiz04.equal s).just_evaluated = true ∧
    Quiz04.equal (Quiz04.equal s) = Quiz04.equal s := by
  have hnone : Quiz04.parseFloat "Error" = none := by decide
  have he : s.current ≠ "Error" := by
    intro h
    rw [h, hnone] at hv
    cases hv
  have hcv : Quiz04.current_value s = v := by
    simp [Quiz04.current_value, hv]
  have h1 : Quiz04.equal s
      = { acc := s.acc, current := Quiz04.fmt v, pending_op := none,
          just_evaluated := true } := by
    simp [Quiz04.equal, he, hp, Quiz04.set_current_from_value, hcv]
  have hfe : Quiz04.fmt v ≠ "Error" := by
    intro h
    rw [h, hnone] at hrt
    cases hrt
  have hcv2 : Quiz04.current_value
      { acc := s.acc, current := Quiz04.fmt v, pending_op := none,
        just_evaluated := true } = v := by
    simp [Quiz04.current_value, hrt]
  refine ⟨?_, ?_, ?_⟩
  · rw [h1]
    exact hcv2
  · rw [h1]
  · rw [h1]
    simp [Quiz04.equal, hfe, Quiz04.set_current_from_value, hcv2]

/-- Witness for C7 at the text `"5"`. -/
theorem c7_witness :
    Quiz04.current_value (Quiz04.equal ⟨7, "5", none, false⟩) = 5 ∧
    (Quiz04.equal (⟨7, "5", none, false⟩ : Quiz04.CalcState)).just_evaluated = true ∧
    Quiz04.equal (Quiz04.equal ⟨7, "5", none, false⟩)
      = Quiz04.equal (⟨7, "5", none, false⟩ : Quiz04.CalcState) :=
  c7_evaluate_idempotent ⟨7, "5", none, false⟩ 5 (by decide) rfl (by decide)

/-- Counterexample for C7 as stated: the valid numeric text
`"0.1234567890123"` carries 13 significant digits; Evaluate with no pending
operator reformats it to `"0.123456789012"`, whose value differs numerically
from the entered one. -/
theorem c7_counterexample :
    (Quiz04.parseFloat "0.1234567890123").isSome = true ∧
    (Quiz04.equal ⟨0, "0.1234567890123", none, false⟩).current = "0.123456789012" ∧
    Quiz04.current_value (Quiz04.equal ⟨0, "0.1234567890123", none, false⟩)
      ≠ Quiz04.current_value (⟨0, "0.1234567890123", none, false⟩ : Quiz04.CalcState) := by
  decide
